import Mathlib

/-
Verification development for the rust-oomd repository.

Shallow embedding conventions:
- Rust Result<T, OomdError> is embedded as Except OomdError T.
- Machine integers (u64, i32, usize) are embedded as Nat / Int; none of the
  verified code paths rely on wrap-around.
- f32 / f64 arithmetic is embedded as exact rational arithmetic over Rat.
- Filesystem reads performed by the code are embedded as explicit inputs
  (file contents as strings, or oracles from pids to file contents); time
  (SystemTime / Instant) is embedded as a Nat of elapsed seconds resp. ticks.
- HashMap<String, V> is embedded as an association list with
  insert-replaces-previous-binding semantics; iteration order of the map is
  the list order (the Rust iteration order is unspecified, so any theorem
  proved for every list order covers the Rust behaviour).
-/

/-- Error taxonomy of src/src/util/error.rs (payloads reduced to strings). -/
inductive OomdError where
  | CgroupNotFound (msg : String)
  | InvalidPath (msg : String)
  | UnsupportedVersion (msg : String)
  | PressureUnavailable (msg : String)
  | Io (msg : String)
  | Parse (msg : String)
  | Nix (msg : String)
  | Json (msg : String)
  | PluginErr (msg : String)
  | Config (msg : String)
  | System (msg : String)
deriving DecidableEq, Repr

/-- Modelled from the spec: PluginRet of crate core/types (the file is not
under src/): the binary decision Continue / Stop, Stop halting the chain. -/
inductive PluginRet where
  | Continue
  | Stop
deriving DecidableEq, Repr

/-- ResourcePressure record as constructed throughout src/src/cgroup/v1.rs and
v2.rs: three percent-stall averages and an optional total stall duration
(embedded as microseconds). The struct itself lives in crate core/types which
is not under src/, but every field is visible at its construction sites. -/
structure ResourcePressure where
  sec_10 : Rat
  sec_60 : Rat
  sec_300 : Rat
  total : Option Nat
deriving DecidableEq, Repr

/-- Modelled from the spec: the weighted composite of core/types (the file is
not under src/): max(sec_10, sec_60*0.8, sec_300*0.6). -/
def ResourcePressure.weighted (r : ResourcePressure) : Rat :=
  max r.sec_10 (max (r.sec_60 * (8/10)) (r.sec_300 * (6/10)))

/-- Splitting helper over character lists (used instead of String.split so
that every definition evaluates by kernel reduction). -/
def splitListAux (p : Char → Bool) : List Char → List Char → List (List Char)
  | [], acc => [acc.reverse]
  | c :: rest, acc =>
      if p c then acc.reverse :: splitListAux p rest []
      else splitListAux p rest (c :: acc)

/-- Split a character list at every separator satisfying p, keeping empty
pieces (the semantics of Rust str::split(char)). -/
def splitList (p : Char → Bool) (l : List Char) : List (List Char) :=
  splitListAux p l []

/-- Embedding of Rust str::split_whitespace: split on whitespace, drop empty
tokens. -/
def splitWhitespace (s : String) : List String :=
  ((splitList (fun c => c.isWhitespace) s.toList).filter (fun t => !t.isEmpty)).map
    List.asString

/-- Decimal value of a digit list. -/
def digitsToNat (l : List Char) : Nat :=
  l.foldl (fun acc c => acc * 10 + (c.toNat - 48)) 0

/-- Embedding of str::parse::<u64> on a character list: decimal digits only
(the optional leading plus sign accepted by Rust is not exercised by any
verified input). -/
def parseU64Chars (l : List Char) : Option Nat :=
  if !l.isEmpty && l.all (fun c => c.isDigit) then some (digitsToNat l) else none

/-- Embedding of str::parse::<u64>. -/
def parseU64 (s : String) : Option Nat :=
  parseU64Chars s.toList

/-- Embedding of str::parse::<i32>: optional minus sign then decimal digits. -/
def parseI32 (s : String) : Option Int :=
  match s.toList with
  | '-' :: rest => (parseU64Chars rest).map (fun n => -(n : Int))
  | l => (parseU64Chars l).map (fun n => (n : Int))

/-- Embedding of str::parse::<f32> / <f64> on the plain decimal forms
digits, digits.digits, digits., .digits (exponents and special values are not
exercised by any verified input); the value is the exact rational. -/
def parseFloat (s : String) : Option Rat :=
  match splitList (fun c => c = '.') s.toList with
  | [a] => (parseU64Chars a).map (fun n => (n : Rat))
  | [a, b] =>
      if a.isEmpty && b.isEmpty then none
      else
        let ipart : Option Nat := if a.isEmpty then some 0 else parseU64Chars a
        let fpart : Option Nat := if b.isEmpty then some 0 else parseU64Chars b
        match ipart, fpart with
        | some i, some f => some ((i : Rat) + (f : Rat) / ((10 : Rat) ^ b.length))
        | _, _ => none
  | _ => none

/-- Embedding of str::contains(pattern): substring test. -/
def strContains (s pat : String) : Bool :=
  decide (pat.toList <:+: s.toList)

/-- Scan of /proc/vmstat lines performed by CgroupV1Interface::get_vmstat_pressure
(src/src/cgroup/v1.rs lines 142-155): accumulate pgscan_kswapd + pgscan_direct
and pgsteal_kswapd + pgsteal_direct over the key-value lines, unparseable
values counting as 0, lines without exactly two tokens skipped. -/
def vmstatScanSteal (lines : List String) : Nat × Nat :=
  lines.foldl
    (fun acc line =>
      match splitWhitespace line with
      | [k, v] =>
          if k = "pgscan_kswapd" || k = "pgscan_direct" then
            (acc.1 + (parseU64 v).getD 0, acc.2)
          else if k = "pgsteal_kswapd" || k = "pgsteal_direct" then
            (acc.1, acc.2 + (parseU64 v).getD 0)
          else acc
      | _ => acc)
    (0, 0)

/-- CgroupV1Interface::get_vmstat_pressure (src/src/cgroup/v1.rs lines 137-169)
on the lines of /proc/vmstat: sec_10 = min(100 * steal/scan, 100) when
scan > 0 else 0, sec_60 = 0.8 * sec_10, sec_300 = 0.6 * sec_10, total = None. -/
def get_vmstat_pressure (lines : List String) : ResourcePressure :=
  let scanSteal := vmstatScanSteal lines
  let pgscan := scanSteal.1
  let pgsteal := scanSteal.2
  let steal_ratio : Rat := if pgscan > 0 then (pgsteal : Rat) / (pgscan : Rat) else 0
  let pressure_10 : Rat := min (steal_ratio * 100) 100
  { sec_10 := pressure_10
    sec_60 := pressure_10 * (8/10)
    sec_300 := pressure_10 * (6/10)
    total := none }

/-- CgroupV1Interface::estimate_memory_pressure (src/src/cgroup/v1.rs lines
117-134): scale the system pressure by usage/limit. The code performs no
clamping of the ratio. The Rust expression usage as f64 / limit as f64 is
embedded as rational division (meaningful for limit > 0; every theorem that
uses this definition assumes 0 < limit). -/
def estimate_memory_pressure (usage limit : Nat) (system_psi : ResourcePressure) :
    ResourcePressure :=
  let usage_ratio : Rat := (usage : Rat) / (limit : Rat)
  { sec_10 := system_psi.sec_10 * usage_ratio
    sec_60 := system_psi.sec_60 * usage_ratio
    sec_300 := system_psi.sec_300 * usage_ratio
    total := system_psi.total }

/-- MemoryStat counters of crate core/types as populated by the selected-key
parsers in src/src/cgroup/v1.rs and v2.rs (all fields visible at those
assignment sites). -/
structure MemoryStat where
  anon : Nat
  file : Nat
  kernel_stack : Nat
  slab : Nat
  sock : Nat
  shmem : Nat
  file_mapped : Nat
  file_dirty : Nat
  file_writeback : Nat
  anon_thp : Nat
  inactive_anon : Nat
  active_anon : Nat
  inactive_file : Nat
  active_file : Nat
  unevictable : Nat
  slab_reclaimable : Nat
  slab_unreclaimable : Nat
  pgfault : Nat
  pgmajfault : Nat
  workingset_refault : Nat
  workingset_activate : Nat
  workingset_nodereclaim : Nat
  pgrefill : Nat
  pgscan : Nat
  pgsteal : Nat
  pgactivate : Nat
  pgdeactivate : Nat
  pglazyfree : Nat
  pglazyfreed : Nat
  thp_fault_alloc : Nat
  thp_collapse_alloc : Nat
deriving DecidableEq, Repr

/-- IOStat record aggregated across devices (fields visible at the assignment
sites in src/src/cgroup/v1.rs get_io_stat and v2.rs get_io_stat). -/
structure IOStat where
  rbytes : Nat
  wbytes : Nat
  rios : Nat
  wios : Nat
  dbytes : Nat
  dios : Nat
deriving DecidableEq, Repr

/-- CachedData union of src/src/cgroup/v2.rs lines 24-35 (identical in
v1.rs lines 27-38). -/
inductive CachedData where
  | MemoryPressure (data : ResourcePressure)
  | MemoryUsage (data : Nat)
  | MemoryLimit (data : Nat)
  | IOPressure (data : ResourcePressure)
  | MemStat (data : MemoryStat)
  | IOStatD (data : IOStat)
  | Pids (data : List Int)
  | Children (data : List String)
  | Populated (data : Bool)
deriving DecidableEq, Repr

/-- CacheEntry of src/src/cgroup/v2.rs lines 17-22: cached payload, insertion
instant (embedded as Nat), and TTL (embedded as Nat of the same unit). -/
structure CacheEntry where
  data : CachedData
  timestamp : Nat
  ttl : Nat
deriving DecidableEq, Repr

/-- Lookup in the cache HashMap. -/
def lookupCache (cache : List (String × CacheEntry)) (key : String) :
    Option CacheEntry :=
  (cache.find? (fun e => e.1 == key)).map (fun e => e.2)

/-- Insert into the cache HashMap, replacing any previous binding of the key. -/
def insertCache (cache : List (String × CacheEntry)) (key : String)
    (e : CacheEntry) : List (String × CacheEntry) :=
  (key, e) :: cache.filter (fun x => !(x.1 == key))

/-- Runtime representation of the generic value T flowing through get_cache:
one constructor per T instantiated by the getters, mirroring the
std::any::type_name dispatch of the Rust code. -/
inductive CacheVal where
  | pressure (p : ResourcePressure)
  | u64 (n : Nat)
  | memStat (s : MemoryStat)
  | ioStat (s : IOStat)
  | pids (l : List Int)
  | children (l : List String)
  | populated (b : Bool)
deriving DecidableEq, Repr

/-- Values whose runtime type is neither ResourcePressure nor u64: these hit
the final arm of the type dispatch in get_cache. -/
def CacheVal.unsupported : CacheVal → Bool
  | .pressure _ => false
  | .u64 _ => false
  | _ => true

/-- Miss path of CgroupV2Interface::get_cache (src/src/cgroup/v2.rs lines
79-106): run the underlying read; on success, store the value when its type
is ResourcePressure (variant chosen by whether the key contains "memory") or
u64 (variant chosen by whether the key contains "limit"), and otherwise
return the System("Unsupported cache type") error, discarding the value. -/
def get_cache_v2_miss (cache : List (String × CacheEntry)) (now : Nat)
    (key : String) (ttl : Nat) (fetch : Except OomdError CacheVal) :
    Except OomdError CacheVal × List (String × CacheEntry) :=
  match fetch with
  | .error e => (.error e, cache)
  | .ok v =>
    match v with
    | .pressure p =>
        let d := if strContains key "memory" then CachedData.MemoryPressure p
                 else CachedData.IOPressure p
        (.ok v, insertCache cache key { data := d, timestamp := now, ttl := ttl })
    | .u64 n =>
        let d := if strContains key "limit" then CachedData.MemoryLimit n
                 else CachedData.MemoryUsage n
        (.ok v, insertCache cache key { data := d, timestamp := now, ttl := ttl })
    | _ => (.error (.System "Unsupported cache type"), cache)

/-- CgroupV2Interface::get_cache (src/src/cgroup/v2.rs lines 64-107): return
the cached value when the entry is younger than the TTL and its variant is
one of the four handled by the hit match (MemoryPressure, MemoryUsage,
MemoryLimit, IOPressure); otherwise fall through to the miss path. The
underlying read is the fetch argument; a hit never consults it. -/
def get_cache_v2 (cache : List (String × CacheEntry)) (now : Nat) (key : String)
    (ttl : Nat) (fetch : Except OomdError CacheVal) :
    Except OomdError CacheVal × List (String × CacheEntry) :=
  match lookupCache cache key with
  | some entry =>
      if now - entry.timestamp < ttl then
        match entry.data with
        | .MemoryPressure d => (.ok (.pressure d), cache)
        | .MemoryUsage d => (.ok (.u64 d), cache)
        | .MemoryLimit d => (.ok (.u64 d), cache)
        | .IOPressure d => (.ok (.pressure d), cache)
        | _ => get_cache_v2_miss cache now key ttl fetch
      else get_cache_v2_miss cache now key ttl fetch
  | none => get_cache_v2_miss cache now key ttl fetch

/-- Miss path of CgroupV1Interface::get_cache (src/src/cgroup/v1.rs lines
94-113): like v2 but every ResourcePressure is stored under the
MemoryPressure variant and every u64 under MemoryUsage. -/
def get_cache_v1_miss (cache : List (String × CacheEntry)) (now : Nat)
    (key : String) (ttl : Nat) (fetch : Except OomdError CacheVal) :
    Except OomdError CacheVal × List (String × CacheEntry) :=
  match fetch with
  | .error e => (.error e, cache)
  | .ok v =>
    match v with
    | .pressure p =>
        (.ok v, insertCache cache key
          { data := CachedData.MemoryPressure p, timestamp := now, ttl := ttl })
    | .u64 n =>
        (.ok v, insertCache cache key
          { data := CachedData.MemoryUsage n, timestamp := now, ttl := ttl })
    | _ => (.error (.System "Unsupported cache type"), cache)

/-- CgroupV1Interface::get_cache (src/src/cgroup/v1.rs lines 80-114): the hit
match handles only MemoryPressure, MemoryUsage and MemoryLimit. -/
def get_cache_v1 (cache : List (String × CacheEntry)) (now : Nat) (key : String)
    (ttl : Nat) (fetch : Except OomdError CacheVal) :
    Except OomdError CacheVal × List (String × CacheEntry) :=
  match lookupCache cache key with
  | some entry =>
      if now - entry.timestamp < ttl then
        match entry.data with
        | .MemoryPressure d => (.ok (.pressure d), cache)
        | .MemoryUsage d => (.ok (.u64 d), cache)
        | .MemoryLimit d => (.ok (.u64 d), cache)
        | _ => get_cache_v1_miss cache now key ttl fetch
      else get_cache_v1_miss cache now key ttl fetch
  | none => get_cache_v1_miss cache now key ttl fetch

/-- CgroupV1Interface::get_system_memory_pressure (src/src/cgroup/v1.rs lines
413-418): a 1-second-TTL cache wrapper around get_vmstat_pressure; the
/proc/vmstat read result is the vmstat argument. -/
def get_system_memory_pressure_v1 (cache : List (String × CacheEntry))
    (now : Nat) (vmstat : Except OomdError (List String)) :
    Except OomdError CacheVal × List (String × CacheEntry) :=
  get_cache_v1 cache now "system_memory_pressure" 1
    (vmstat.map (fun lines => CacheVal.pressure (get_vmstat_pressure lines)))

/-- CgroupPath of src/src/cgroup/types.rs lines 40-45 (paths as strings). -/
structure CgroupPath where
  root : String
  path : String
  relative_path : String
deriving DecidableEq, Repr

/-- CgroupContext of src/src/cgroup/types.rs lines 70-83. -/
structure CgroupContext where
  path : CgroupPath
  memory_usage : Option Nat
  memory_limit : Option Nat
  memory_pressure : Option ResourcePressure
  io_pressure : Option ResourcePressure
  memory_stat : Option MemoryStat
  io_stat : Option IOStat
  pids : Option (List Int)
  children : Option (List String)
  is_populated : Option Bool
  current_age : Option Nat
deriving DecidableEq, Repr

/-- CgroupContext::new (src/src/cgroup/types.rs lines 86-100): every data
field absent. -/
def CgroupContext.new (p : CgroupPath) : CgroupContext :=
  { path := p, memory_usage := none, memory_limit := none,
    memory_pressure := none, io_pressure := none, memory_stat := none,
    io_stat := none, pids := none, children := none, is_populated := none,
    current_age := none }

/-- CgroupContext::is_valid (src/src/cgroup/types.rs lines 102-104). -/
def CgroupContext.is_valid (c : CgroupContext) : Bool :=
  c.memory_usage.isSome || c.memory_pressure.isSome

/-- CgroupManager::get_cgroup_context (src/src/cgroup/manager.rs lines
192-219): the nine concurrently awaited field reads are the nine Except
arguments; each is converted with Result::ok() into an optional field and the
assembly itself always returns Ok. -/
def get_cgroup_context (p : CgroupPath)
    (memory_usage : Except OomdError Nat) (memory_limit : Except OomdError Nat)
    (memory_pressure : Except OomdError ResourcePressure)
    (io_pressure : Except OomdError ResourcePressure)
    (memory_stat : Except OomdError MemoryStat)
    (io_stat : Except OomdError IOStat)
    (pids : Except OomdError (List Int))
    (children : Except OomdError (List String))
    (populated : Except OomdError Bool) : Except OomdError CgroupContext :=
  Except.ok
    { CgroupContext.new p with
      memory_usage := memory_usage.toOption
      memory_limit := memory_limit.toOption
      memory_pressure := memory_pressure.toOption
      io_pressure := io_pressure.toOption
      memory_stat := memory_stat.toOption
      io_stat := io_stat.toOption
      pids := pids.toOption
      children := children.toOption
      is_populated := populated.toOption }

/-- Vmstat contents of scenario S2 of the spec. -/
def s2_vmstat_lines : List String :=
  ["pgscan_kswapd 1000", "pgscan_direct 0", "pgsteal_kswapd 900", "pgsteal_direct 0"]

lemma vmstat_s2_scan_steal : vmstatScanSteal s2_vmstat_lines = (1000, 900) := by
  decide

lemma vmstat_s2_eval :
    get_vmstat_pressure s2_vmstat_lines =
      { sec_10 := 90, sec_60 := 72, sec_300 := 54, total := none } := by
  simp only [get_vmstat_pressure, vmstat_s2_scan_steal, ResourcePressure.mk.injEq]
  norm_num [min_def]

/-- C4: on cgroup v1 the system memory pressure is synthesized from
/proc/vmstat with scan = pgscan_kswapd + pgscan_direct and steal =
pgsteal_kswapd + pgsteal_direct, sec_10 = min(100, 100*steal/scan) for
scan > 0 (0 otherwise), sec_60 = 0.8*sec_10, sec_300 = 0.6*sec_10,
total = None; on the S2 input (pgscan_kswapd=1000, pgscan_direct=0,
pgsteal_kswapd=900, pgsteal_direct=0) the result is
{sec_10=90, sec_60=72, sec_300=54, total=None}, also through the
get_system_memory_pressure cache wrapper on a cold cache. -/
theorem c4_vmstat_system_pressure :
    get_vmstat_pressure s2_vmstat_lines =
      { sec_10 := 90, sec_60 := 72, sec_300 := 54, total := none } ∧
    (get_system_memory_pressure_v1 [] 0 (Except.ok s2_vmstat_lines)).1 =
      Except.ok (CacheVal.pressure
        { sec_10 := 90, sec_60 := 72, sec_300 := 54, total := none }) := by
  refine ⟨vmstat_s2_eval, ?_⟩
  simp [get_system_memory_pressure_v1, get_cache_v1, get_cache_v1_miss,
    lookupCache, Except.map, vmstat_s2_eval]

lemma vmstat_pressure_bounds (lines : List String) :
    0 ≤ (get_vmstat_pressure lines).sec_10 ∧ (get_vmstat_pressure lines).sec_10 ≤ 100 ∧
    0 ≤ (get_vmstat_pressure lines).sec_60 ∧ (get_vmstat_pressure lines).sec_60 ≤ 100 ∧
    0 ≤ (get_vmstat_pressure lines).sec_300 ∧ (get_vmstat_pressure lines).sec_300 ≤ 100 := by
  simp only [get_vmstat_pressure]
  set ratio : Rat :=
    (if (vmstatScanSteal lines).1 > 0 then
      ((vmstatScanSteal lines).2 : Rat) / ((vmstatScanSteal lines).1 : Rat) else 0) with hratio
  have hr0 : 0 ≤ ratio := by
    rw [hratio]
    split
    · positivity
    · exact le_refl 0
  have h0 : 0 ≤ min (ratio * 100) 100 := le_min (by positivity) (by norm_num)
  have h100 : min (ratio * 100) 100 ≤ 100 := min_le_right _ _
  refine ⟨h0, h100, ?_, ?_, ?_, ?_⟩ <;> nlinarith

lemma scaled_pressure_bound {x t : Rat} (hx0 : 0 ≤ x) (hx : x ≤ 100)
    (ht0 : 0 ≤ t) (ht1 : t ≤ 1) : 0 ≤ x * t ∧ x * t ≤ 100 :=
  ⟨mul_nonneg hx0 ht0, by nlinarith⟩

/-- C5 counterexample: the claim asserts the usage/limit ratio is clamped to
[0,1] so that every returned value stays in [0,100]; but with usage 2000,
limit 1000 and the S2 system pressure (sec_10 = 90) the per-cgroup estimate
has sec_10 = 180 > 100 — estimate_memory_pressure does not clamp. -/
theorem c5_counterexample :
    (estimate_memory_pressure 2000 1000 (get_vmstat_pressure s2_vmstat_lines)).sec_10 = 180 ∧
    ¬ (estimate_memory_pressure 2000 1000 (get_vmstat_pressure s2_vmstat_lines)).sec_10 ≤ 100 := by
  rw [vmstat_s2_eval]
  simp only [estimate_memory_pressure]
  norm_num

/-- C5 (amended): on cgroup v1 the per-cgroup memory pressure equals the
system pressure scaled by the unclamped ratio memory_usage / memory_limit;
whenever usage ≤ limit (and the limit is positive) each of sec_10, sec_60,
sec_300 stays within [0,100]. -/
theorem c5_scaled_pressure_bounds (lines : List String) (usage limit : Nat)
    (hl : 0 < limit) (hu : usage ≤ limit) :
    estimate_memory_pressure usage limit (get_vmstat_pressure lines) =
      { sec_10 := (get_vmstat_pressure lines).sec_10 * ((usage : Rat) / (limit : Rat))
        sec_60 := (get_vmstat_pressure lines).sec_60 * ((usage : Rat) / (limit : Rat))
        sec_300 := (get_vmstat_pressure lines).sec_300 * ((usage : Rat) / (limit : Rat))
        total := (get_vmstat_pressure lines).total } ∧
    0 ≤ (estimate_memory_pressure usage limit (get_vmstat_pressure lines)).sec_10 ∧
    (estimate_memory_pressure usage limit (get_vmstat_pressure lines)).sec_10 ≤ 100 ∧
    0 ≤ (estimate_memory_pressure usage limit (get_vmstat_pressure lines)).sec_60 ∧
    (estimate_memory_pressure usage limit (get_vmstat_pressure lines)).sec_60 ≤ 100 ∧
    0 ≤ (estimate_memory_pressure usage limit (get_vmstat_pressure lines)).sec_300 ∧
    (estimate_memory_pressure usage limit (get_vmstat_pressure lines)).sec_300 ≤ 100 := by
  have hb := vmstat_pressure_bounds lines
  have hlq : (0 : Rat) < (limit : Rat) := by exact_mod_cast hl
  have ht0 : 0 ≤ (usage : Rat) / (limit : Rat) := by positivity
  have ht1 : (usage : Rat) / (limit : Rat) ≤ 1 := by
    rw [div_le_one hlq]
    exact_mod_cast hu
  refine ⟨rfl, ?_⟩
  simp only [estimate_memory_pressure]
  obtain ⟨h1, h2, h3, h4, h5, h6⟩ := hb
  exact ⟨(scaled_pressure_bound h1 h2 ht0 ht1).1, (scaled_pressure_bound h1 h2 ht0 ht1).2,
    (scaled_pressure_bound h3 h4 ht0 ht1).1, (scaled_pressure_bound h3 h4 ht0 ht1).2,
    (scaled_pressure_bound h5 h6 ht0 ht1).1, (scaled_pressure_bound h5 h6 ht0 ht1).2⟩

/-- Witness for c5_scaled_pressure_bounds at usage 500, limit 1000 and the S2
vmstat contents. -/
theorem c5_scaled_pressure_bounds_witness :
    0 ≤ (estimate_memory_pressure 500 1000 (get_vmstat_pressure s2_vmstat_lines)).sec_10 ∧
    (estimate_memory_pressure 500 1000 (get_vmstat_pressure s2_vmstat_lines)).sec_10 ≤ 100 :=
  ⟨(c5_scaled_pressure_bounds s2_vmstat_lines 500 1000 (by norm_num) (by norm_num)).2.1,
   (c5_scaled_pressure_bounds s2_vmstat_lines 500 1000 (by norm_num) (by norm_num)).2.2.1⟩

/-- C2: evaluation of the get_cache type dispatch. A fresh cache entry of a
handled variant is returned without consulting the underlying read (the
result is the same for every fetch argument), but for every getter whose
value type is not ResourcePressure or u64 (memory_stat, io_stat, pids,
children, populated) a successful underlying read is discarded: both the v2
and the v1 get_cache return System("Unsupported cache type") and leave the
cache unchanged, contradicting the claim that the successful result is
stored and returned. -/
theorem c2_cache_unsupported_types :
    (∀ (cache : List (String × CacheEntry)) (now : Nat) (key : String) (ttl : Nat)
       (entry : CacheEntry) (d : Nat) (fetch : Except OomdError CacheVal),
       lookupCache cache key = some entry → entry.data = CachedData.MemoryUsage d →
       now - entry.timestamp < ttl →
       get_cache_v2 cache now key ttl fetch = (Except.ok (CacheVal.u64 d), cache)) ∧
    (∀ (cache : List (String × CacheEntry)) (now : Nat) (key : String) (ttl : Nat)
       (v : CacheVal), lookupCache cache key = none → v.unsupported = true →
       get_cache_v2 cache now key ttl (Except.ok v) =
         (Except.error (OomdError.System "Unsupported cache type"), cache)) ∧
    (∀ (cache : List (String × CacheEntry)) (now : Nat) (key : String) (ttl : Nat)
       (v : CacheVal), lookupCache cache key = none → v.unsupported = true →
       get_cache_v1 cache now key ttl (Except.ok v) =
         (Except.error (OomdError.System "Unsupported cache type"), cache)) := by
  refine ⟨?_, ?_, ?_⟩
  · intro cache now key ttl entry d fetch hlook hdata hfresh
    simp [get_cache_v2, hlook, hdata, hfresh]
  · intro cache now key ttl v hlook hv
    cases v <;> simp_all [get_cache_v2, get_cache_v2_miss, CacheVal.unsupported]
  · intro cache now key ttl v hlook hv
    cases v <;> simp_all [get_cache_v1, get_cache_v1_miss, CacheVal.unsupported]

/-- Witness for c2_cache_unsupported_types: a cold-cache pids fetch that
succeeds with [123, 456] is turned into the System error, and a fresh
memory_usage entry is served from the cache even when the underlying read
would fail. -/
theorem c2_cache_unsupported_types_witness :
    get_cache_v2 [] 0 "pids:workload" 2 (Except.ok (CacheVal.pids [123, 456])) =
      (Except.error (OomdError.System "Unsupported cache type"), []) ∧
    get_cache_v2
      [("memory_usage:workload",
        { data := CachedData.MemoryUsage 100, timestamp := 0, ttl := 1 })] 0
      "memory_usage:workload" 1 (Except.error (OomdError.Io "would not be read"))
      = (Except.ok (CacheVal.u64 100),
         [("memory_usage:workload",
           { data := CachedData.MemoryUsage 100, timestamp := 0, ttl := 1 })]) :=
  ⟨c2_cache_unsupported_types.2.1 [] 0 "pids:workload" 2 (CacheVal.pids [123, 456])
      (by rfl) (by rfl),
   c2_cache_unsupported_types.1
      [("memory_usage:workload",
        { data := CachedData.MemoryUsage 100, timestamp := 0, ttl := 1 })] 0
      "memory_usage:workload" 1
      { data := CachedData.MemoryUsage 100, timestamp := 0, ttl := 1 } 100
      (Except.error (OomdError.Io "would not be read")) (by decide) (by rfl)
      (by decide)⟩

/-- C3: context assembly never fails; every failed field read becomes None,
every successful one is kept; when memory_usage succeeds and memory_limit
fails, the context keeps memory_usage, drops memory_limit and is_valid holds. -/
theorem c3_context_assembly (p : CgroupPath)
    (r1 r2 : Except OomdError Nat)
    (r3 r4 : Except OomdError ResourcePressure)
    (r5 : Except OomdError MemoryStat) (r6 : Except OomdError IOStat)
    (r7 : Except OomdError (List Int)) (r8 : Except OomdError (List String))
    (r9 : Except OomdError Bool) :
    (get_cgroup_context p r1 r2 r3 r4 r5 r6 r7 r8 r9).isOk = true ∧
    ∀ ctx, get_cgroup_context p r1 r2 r3 r4 r5 r6 r7 r8 r9 = Except.ok ctx →
      ctx.memory_usage = r1.toOption ∧ ctx.memory_limit = r2.toOption ∧
      ctx.memory_pressure = r3.toOption ∧ ctx.io_pressure = r4.toOption ∧
      ctx.memory_stat = r5.toOption ∧ ctx.io_stat = r6.toOption ∧
      ctx.pids = r7.toOption ∧ ctx.children = r8.toOption ∧
      ctx.is_populated = r9.toOption ∧
      (∀ u, r1 = Except.ok u → ∀ e, r2 = Except.error e →
        ctx.memory_usage = some u ∧ ctx.memory_limit = none ∧
        ctx.is_valid = true) := by
  constructor
  · rfl
  · intro ctx h
    simp only [get_cgroup_context, Except.ok.injEq] at h
    subst h
    refine ⟨rfl, rfl, rfl, rfl, rfl, rfl, rfl, rfl, rfl, ?_⟩
    intro u hu e he
    simp [hu, he, Except.toOption, CgroupContext.is_valid]

/-- Sample path for witnesses. -/
def samplePath : CgroupPath :=
  { root := "/sys/fs/cgroup", path := "/sys/fs/cgroup/workload",
    relative_path := "workload" }

/-- Context produced by assembling a successful memory_usage read of 5 with
eight failing reads. -/
def sampleAssembled : CgroupContext :=
  { path := samplePath, memory_usage := some 5, memory_limit := none,
    memory_pressure := none, io_pressure := none, memory_stat := none,
    io_stat := none, pids := none, children := none, is_populated := none,
    current_age := none }

/-- Witness for c3_context_assembly: memory_usage succeeds with 5,
memory_limit fails with a permission error, every other read fails too. -/
theorem c3_context_assembly_witness :
    (get_cgroup_context samplePath (Except.ok 5)
      (Except.error (OomdError.Io "permission denied"))
      (Except.error (OomdError.Io "e3")) (Except.error (OomdError.Io "e4"))
      (Except.error (OomdError.Io "e5")) (Except.error (OomdError.Io "e6"))
      (Except.error (OomdError.Io "e7")) (Except.error (OomdError.Io "e8"))
      (Except.error (OomdError.Io "e9"))).isOk = true ∧
    sampleAssembled.memory_usage = some 5 ∧ sampleAssembled.memory_limit = none ∧
    sampleAssembled.is_valid = true := by
  have h := c3_context_assembly samplePath (Except.ok 5)
    (Except.error (OomdError.Io "permission denied"))
    (Except.error (OomdError.Io "e3")) (Except.error (OomdError.Io "e4"))
    (Except.error (OomdError.Io "e5")) (Except.error (OomdError.Io "e6"))
    (Except.error (OomdError.Io "e7")) (Except.error (OomdError.Io "e8"))
    (Except.error (OomdError.Io "e9"))
  have h2 := h.2 sampleAssembled (by rfl)
  exact ⟨h.1, h2.2.2.2.2.2.2.2.2.2 5 rfl (OomdError.Io "permission denied") rfl⟩

/-- PsiData of src/src/cgroup/interface.rs lines 71-77: the three averages
and the optional total (microseconds). -/
structure PsiData where
  avg10 : Rat
  avg60 : Rat
  avg300 : Rat
  total : Option Nat
deriving DecidableEq, Repr

/-- PsiData::parse_float_field (src/src/cgroup/interface.rs lines 104-110):
split on the equals sign; exactly two pieces required, the second parsed as a
float (error payloads reduced to the offending text). -/
def parse_float_field (field : String) : Except OomdError Rat :=
  match splitList (fun c => c = '=') field.toList with
  | [_, v] =>
      match parseFloat (List.asString v) with
      | some q => Except.ok q
      | none => Except.error (OomdError.Parse (List.asString v))
  | _ => Except.error (OomdError.Parse field)

/-- PsiData::parse_u64_field (src/src/cgroup/interface.rs lines 112-121):
split on the equals sign; exactly two pieces required; a value that fails to
parse as u64 yields Ok(None), not an error. -/
def parse_u64_field (field : String) : Except OomdError (Option Nat) :=
  match splitList (fun c => c = '=') field.toList with
  | [_, v] => Except.ok (parseU64Chars v)
  | _ => Except.error (OomdError.Parse field)

/-- PsiData::from_line after split_whitespace (src/src/cgroup/interface.rs
lines 80-102): fewer than four tokens is a Parse error; tokens 1-3 are parsed
as float fields; a fifth token, when present, is parsed as the optional
total; tokens beyond the fifth are ignored. -/
def PsiData.fromParts : List String → Except OomdError PsiData
  | _p0 :: p1 :: p2 :: p3 :: rest =>
      match parse_float_field p1 with
      | .error e => .error e
      | .ok a10 =>
        match parse_float_field p2 with
        | .error e => .error e
        | .ok a60 =>
          match parse_float_field p3 with
          | .error e => .error e
          | .ok a300 =>
            match rest with
            | [] => .ok { avg10 := a10, avg60 := a60, avg300 := a300, total := none }
            | p4 :: _ =>
              match parse_u64_field p4 with
              | .error e => .error e
              | .ok t => .ok { avg10 := a10, avg60 := a60, avg300 := a300, total := t }
  | _ => .error (OomdError.Parse "Invalid PSI format")

/-- PsiData::from_line (src/src/cgroup/interface.rs lines 80-102). -/
def PsiData.from_line (line : String) : Except OomdError PsiData :=
  PsiData.fromParts (splitWhitespace line)

/-- PsiData::to_resource_pressure (src/src/cgroup/interface.rs lines
123-130). -/
def PsiData.to_resource_pressure (d : PsiData) : ResourcePressure :=
  { sec_10 := d.avg10, sec_60 := d.avg60, sec_300 := d.avg300, total := d.total }

lemma parseFloat_one : parseFloat "1.0" = some 1 := by
  have h : splitList (fun c => c = '.') ['1', '.', '0'] = [['1'], ['0']] := by decide
  have h1 : parseU64Chars ['1'] = some 1 := by decide
  have h0 : parseU64Chars ['0'] = some 0 := by decide
  simp [parseFloat, h, h1, h0]

lemma parse_float_field_avg10 : parse_float_field "avg10=1.0" = Except.ok 1 := by
  have h : splitList (fun c => c = '=') ['a', 'v', 'g', '1', '0', '=', '1', '.', '0'] =
      [['a', 'v', 'g', '1', '0'], ['1', '.', '0']] := by decide
  have ha : List.asString ['1', '.', '0'] = "1.0" := by decide
  simp [parse_float_field, h, ha, parseFloat_one]

lemma parseFloat_two : parseFloat "2.0" = some 2 := by
  have h : splitList (fun c => c = '.') ['2', '.', '0'] = [['2'], ['0']] := by decide
  have h1 : parseU64Chars ['2'] = some 2 := by decide
  have h0 : parseU64Chars ['0'] = some 0 := by decide
  simp [parseFloat, h, h1, h0]

lemma parseFloat_three : parseFloat "3.0" = some 3 := by
  have h : splitList (fun c => c = '.') ['3', '.', '0'] = [['3'], ['0']] := by decide
  have h1 : parseU64Chars ['3'] = some 3 := by decide
  have h0 : parseU64Chars ['0'] = some 0 := by decide
  simp [parseFloat, h, h1, h0]

lemma parse_float_field_avg60 : parse_float_field "avg60=2.0" = Except.ok 2 := by
  have h : splitList (fun c => c = '=') ['a', 'v', 'g', '6', '0', '=', '2', '.', '0'] =
      [['a', 'v', 'g', '6', '0'], ['2', '.', '0']] := by decide
  have ha : List.asString ['2', '.', '0'] = "2.0" := by decide
  simp [parse_float_field, h, ha, parseFloat_two]

lemma parse_float_field_avg300 : parse_float_field "avg300=3.0" = Except.ok 3 := by
  have h : splitList (fun c => c = '=')
      ['a', 'v', 'g', '3', '0', '0', '=', '3', '.', '0'] =
      [['a', 'v', 'g', '3', '0', '0'], ['3', '.', '0']] := by decide
  have ha : List.asString ['3', '.', '0'] = "3.0" := by decide
  simp [parse_float_field, h, ha, parseFloat_three]

/-- C8 counterexample: the claim says a total= token whose value is not a
valid unsigned integer yields a Parse error, but parse_u64_field maps such a
value to Ok(None), so the line parses successfully with total = None. -/
theorem c8_counterexample :
    PsiData.from_line "full avg10=1.0 avg60=2.0 avg300=3.0 total=abc" =
      Except.ok { avg10 := 1, avg60 := 2, avg300 := 3, total := none } := by
  have hw : splitWhitespace "full avg10=1.0 avg60=2.0 avg300=3.0 total=abc" =
      ["full", "avg10=1.0", "avg60=2.0", "avg300=3.0", "total=abc"] := by decide
  have ht : parse_u64_field "total=abc" = Except.ok none := by rfl
  simp [PsiData.from_line, hw, PsiData.fromParts, parse_float_field_avg10,
    parse_float_field_avg60, parse_float_field_avg300, ht]

/-- C8 (amended): the parser rejects lines with fewer than four tokens,
accepts lines with the three avgN tokens (total optional), propagates a Parse
error from any malformed avg token and from a fifth token not of key=value
shape, and maps a well-shaped fifth token to its parsed value — where a value
that fails u64 parsing becomes total = None without an error. -/
theorem c8_psi_from_line :
    (∀ parts : List String, parts.length < 4 →
       ∃ m, PsiData.fromParts parts = Except.error (OomdError.Parse m)) ∧
    (∀ p0 p1 p2 p3 q1 q2 q3,
       parse_float_field p1 = Except.ok q1 → parse_float_field p2 = Except.ok q2 →
       parse_float_field p3 = Except.ok q3 →
       PsiData.fromParts [p0, p1, p2, p3] =
         Except.ok { avg10 := q1, avg60 := q2, avg300 := q3, total := none }) ∧
    (∀ p0 p1 p2 p3 p4 rest q1 q2 q3 t,
       parse_float_field p1 = Except.ok q1 → parse_float_field p2 = Except.ok q2 →
       parse_float_field p3 = Except.ok q3 → parse_u64_field p4 = Except.ok t →
       PsiData.fromParts (p0 :: p1 :: p2 :: p3 :: p4 :: rest) =
         Except.ok { avg10 := q1, avg60 := q2, avg300 := q3, total := t }) ∧
    (∀ p0 p1 p2 p3 rest e, parse_float_field p1 = Except.error e →
       PsiData.fromParts (p0 :: p1 :: p2 :: p3 :: rest) = Except.error e) ∧
    (∀ p0 p1 p2 p3 rest q1 e, parse_float_field p1 = Except.ok q1 →
       parse_float_field p2 = Except.error e →
       PsiData.fromParts (p0 :: p1 :: p2 :: p3 :: rest) = Except.error e) ∧
    (∀ p0 p1 p2 p3 rest q1 q2 e, parse_float_field p1 = Except.ok q1 →
       parse_float_field p2 = Except.ok q2 → parse_float_field p3 = Except.error e →
       PsiData.fromParts (p0 :: p1 :: p2 :: p3 :: rest) = Except.error e) ∧
    (∀ p0 p1 p2 p3 p4 rest q1 q2 q3 e,
       parse_float_field p1 = Except.ok q1 → parse_float_field p2 = Except.ok q2 →
       parse_float_field p3 = Except.ok q3 → parse_u64_field p4 = Except.error e →
       PsiData.fromParts (p0 :: p1 :: p2 :: p3 :: p4 :: rest) = Except.error e) := by
  refine ⟨?_, ?_, ?_, ?_, ?_, ?_, ?_⟩
  · intro parts hlen
    rcases parts with _ | ⟨a, _ | ⟨b, _ | ⟨c, _ | ⟨d, rest⟩⟩⟩⟩
    · exact ⟨"Invalid PSI format", rfl⟩
    · exact ⟨"Invalid PSI format", rfl⟩
    · exact ⟨"Invalid PSI format", rfl⟩
    · exact ⟨"Invalid PSI format", rfl⟩
    · simp at hlen
      omega
  · intro p0 p1 p2 p3 q1 q2 q3 h1 h2 h3
    simp [PsiData.fromParts, h1, h2, h3]
  · intro p0 p1 p2 p3 p4 rest q1 q2 q3 t h1 h2 h3 h4
    simp [PsiData.fromParts, h1, h2, h3, h4]
  · intro p0 p1 p2 p3 rest e h1
    cases rest <;> simp [PsiData.fromParts, h1]
  · intro p0 p1 p2 p3 rest q1 e h1 h2
    cases rest <;> simp [PsiData.fromParts, h1, h2]
  · intro p0 p1 p2 p3 rest q1 q2 e h1 h2 h3
    cases rest <;> simp [PsiData.fromParts, h1, h2, h3]
  · intro p0 p1 p2 p3 p4 rest q1 q2 q3 e h1 h2 h3 h4
    simp [PsiData.fromParts, h1, h2, h3, h4]

/-- Witness for c8_psi_from_line at a well-formed line with total=77. -/
theorem c8_psi_from_line_witness :
    PsiData.fromParts ["full", "avg10=1.0", "avg60=2.0", "avg300=3.0", "total=77"] =
      Except.ok { avg10 := 1, avg60 := 2, avg300 := 3, total := some 77 } :=
  c8_psi_from_line.2.2.1 "full" "avg10=1.0" "avg60=2.0" "avg300=3.0" "total=77" []
    1 2 3 (some 77) parse_float_field_avg10 parse_float_field_avg60
    parse_float_field_avg300 (by rfl)

/-- OomdContext restricted to the field consumed by the verified plugins
(src/src/cgroup/types.rs lines 107-113): the cgroups map, embedded as an
association list whose order stands for the unspecified HashMap iteration
order. -/
structure OomdContext where
  cgroups : List (String × CgroupContext)

/-- OomdContext::get_cgroup (src/src/cgroup/types.rs lines 133-135). -/
def OomdContext.get_cgroup (ctx : OomdContext) (path : String) :
    Option CgroupContext :=
  (ctx.cgroups.find? (fun e => e.1 == path)).map (fun e => e.2)

/-- MemoryPressureDetector state (src/src/plugins/detectors/memory_pressure.rs
lines 9-15): the BasePlugin is reduced to its enabled flag, the only part
read by run; sample timestamps are seconds. -/
structure MemoryPressureDetector where
  enabled : Bool
  threshold : Rat
  duration_seconds : Nat
  cgroup_pattern : String
  pressure_history : List (String × List (Nat × Rat))

/-- MemoryPressureDetector::new (src/src/plugins/detectors/memory_pressure.rs
lines 19-31). -/
def MemoryPressureDetector.new : MemoryPressureDetector :=
  { enabled := true, threshold := 80, duration_seconds := 30,
    cgroup_pattern := "*", pressure_history := [] }

/-- Lookup in the pressure_history HashMap. -/
def lookupHistory (h : List (String × List (Nat × Rat))) (k : String) :
    Option (List (Nat × Rat)) :=
  (h.find? (fun e => e.1 == k)).map (fun e => e.2)

/-- MemoryPressureDetector::check_pressure_threshold
(src/src/plugins/detectors/memory_pressure.rs lines 50-87). The method takes
&self: line 67 clones the per-cgroup history into a local vector, pushes the
new sample and prunes it, but the clone is never written back to
self.pressure_history (no interior mutability exists for it), which is why
this embedding returns only the boolean and no updated detector. -/
def check_pressure_threshold (d : MemoryPressureDetector) (context : OomdContext)
    (cgroup_path : String) (now : Nat) : Except OomdError Bool :=
  match context.get_cgroup cgroup_path with
  | none => Except.error (OomdError.CgroupNotFound cgroup_path)
  | some cgroup_context =>
    match cgroup_context.memory_pressure with
    | none => Except.error (OomdError.PressureUnavailable cgroup_path)
    | some pressure =>
      let weighted_pressure := pressure.weighted
      let pushed := ((lookupHistory d.pressure_history cgroup_path).getD []) ++
        [(now, weighted_pressure)]
      let history := pushed.filter (fun s => now - s.1 ≤ d.duration_seconds * 2)
      let starts := (history.filter (fun s => d.threshold ≤ s.2)).map (fun s => s.1)
      match starts.min? with
      | some start_time => Except.ok (d.duration_seconds ≤ now - start_time)
      | none => Except.ok false

/-- MemoryPressureDetector::find_matching_cgroups
(src/src/plugins/detectors/memory_pressure.rs lines 90-101). -/
def find_matching_cgroups (d : MemoryPressureDetector) (context : OomdContext) :
    List String :=
  (context.cgroups.map (fun e => e.1)).filter
    (fun p => if d.cgroup_pattern = "*" then true else strContains p d.cgroup_pattern)

/-- MemoryPressureDetector::run (src/src/plugins/detectors/memory_pressure.rs
lines 150-192): evaluate every matching cgroup, treating errors as skips;
Stop when at least one triggered. Like check_pressure_threshold, run takes
&self: it cannot and does not update pressure_history, so consecutive ticks
all evaluate against the same detector value. -/
def MemoryPressureDetector.run (d : MemoryPressureDetector)
    (context : OomdContext) (now : Nat) : PluginRet :=
  if !d.enabled then PluginRet.Continue
  else
    let matching := find_matching_cgroups d context
    let triggered := matching.filter (fun p =>
      match check_pressure_threshold d context p now with
      | Except.ok true => true
      | _ => false)
    if triggered.isEmpty then PluginRet.Continue else PluginRet.Stop

/-- Pressure sample of scenario S1: avg10=85, avg60=80, avg300=60. -/
def s1_pressure : ResourcePressure :=
  { sec_10 := 85, sec_60 := 80, sec_300 := 60, total := some 1000000 }

/-- Context of scenario S1: a single cgroup svc/a exposing s1_pressure. -/
def s1_context : OomdContext :=
  { cgroups := [("svc/a",
      { CgroupContext.new
          { root := "/sys/fs/cgroup", path := "/sys/fs/cgroup/svc/a",
            relative_path := "svc/a" } with
        memory_pressure := some s1_pressure })] }

/-- Detector of scenario S1: threshold 70, duration 5 s, pattern svc/a, fresh
history. -/
def s1_detector : MemoryPressureDetector :=
  { enabled := true, threshold := 70, duration_seconds := 5,
    cgroup_pattern := "svc/a", pressure_history := [] }

lemma s1_weighted : s1_pressure.weighted = 85 := by
  norm_num [ResourcePressure.weighted, s1_pressure, max_def]

/-- C1: because check_pressure_threshold never persists the history it
builds, a detector whose history map has no entry for the cgroup (the
invariant state, since nothing ever writes pressure_history) can never
report true when duration_seconds ≥ 1; consequently, in scenario S1
(constant weighted pressure 85 ≥ threshold 70, duration 5 s, one evaluation
per second) run returns Continue at every tick — including the 6th — and
never Stop, contradicting the claimed trigger on the 6th evaluation. -/
theorem c1_pressure_history_never_persisted :
    (∀ (d : MemoryPressureDetector) (ctx : OomdContext) (p : String) (now : Nat),
       lookupHistory d.pressure_history p = none → 1 ≤ d.duration_seconds →
       check_pressure_threshold d ctx p now ≠ Except.ok true) ∧
    (∀ now : Nat, s1_detector.run s1_context now = PluginRet.Continue) := by
  have hgen : ∀ (d : MemoryPressureDetector) (ctx : OomdContext) (p : String)
      (now : Nat), lookupHistory d.pressure_history p = none →
      1 ≤ d.duration_seconds →
      check_pressure_threshold d ctx p now ≠ Except.ok true := by
    intro d ctx p now hlook hdur
    cases hcg : ctx.get_cgroup p with
    | none => simp [check_pressure_threshold, hcg]
    | some cgroup_context =>
      cases hmp : cgroup_context.memory_pressure with
      | none => simp [check_pressure_threshold, hcg, hmp]
      | some pressure =>
        have hself : now ≤ d.duration_seconds * 2 + now := by omega
        by_cases hw : d.threshold ≤ pressure.weighted
        · simp [check_pressure_threshold, hcg, hmp, hlook, hself, hw, List.min?,
            Nat.sub_self]
          omega
        · simp [check_pressure_threshold, hcg, hmp, hlook, hself, hw, List.min?]
  refine ⟨hgen, ?_⟩
  intro now
  have hchk := hgen s1_detector s1_context "svc/a" now (by rfl)
    (by norm_num [s1_detector])
  have hmatch : find_matching_cgroups s1_detector s1_context = ["svc/a"] := by
    simp [find_matching_cgroups, s1_detector, s1_context, strContains]
  have hen : s1_detector.enabled = true := rfl
  unfold MemoryPressureDetector.run
  rw [hmatch]
  match hres : check_pressure_threshold s1_detector s1_context "svc/a" now with
  | Except.ok true => exact absurd hres hchk
  | Except.ok false => simp [hres, hen]
  | Except.error e => simp [hres, hen]

/-- Witness for c1_pressure_history_never_persisted at the 6th tick (now = 5
for ticks at 0..5 seconds). -/
theorem c1_pressure_history_never_persisted_witness :
    check_pressure_threshold s1_detector s1_context "svc/a" 5 ≠ Except.ok true ∧
    s1_detector.run s1_context 5 = PluginRet.Continue :=
  ⟨c1_pressure_history_never_persisted.1 s1_detector s1_context "svc/a" 5
      (by rfl) (by norm_num [s1_detector]),
   c1_pressure_history_never_persisted.2 5⟩

/-- KillStrategy (src/src/plugins/actions/kill.rs lines 21-35). -/
inductive KillStrategy where
  | HighestMemory
  | HighestOomScore
  | LowestOomScore
  | Oldest
  | Newest
  | CgroupTarget (cgroup_path : String)
deriving DecidableEq, Repr

/-- ProcessInfo of crate core/types as constructed by
KillAction::get_process_info (src/src/plugins/actions/kill.rs lines 109-116):
memory_usage is the stat vsize, cpu_usage the f32 of utime + stime. -/
structure ProcessInfo where
  pid : Int
  comm : String
  memory_usage : Nat
  cpu_usage : Rat
  oom_score : Int
  oom_score_adj : Int
deriving DecidableEq, Repr

/-- KillAction state (src/src/plugins/actions/kill.rs lines 12-18); the
BasePlugin is reduced to its enabled flag, the only part read by run. -/
structure KillAction where
  enabled : Bool
  kill_strategy : KillStrategy
  dry_run : Bool
  max_kill_count : Nat
  kill_signal : Int
deriving DecidableEq, Repr

/-- KillAction::new (src/src/plugins/actions/kill.rs lines 45-57). -/
def KillAction.new : KillAction :=
  { enabled := true, kill_strategy := KillStrategy.HighestMemory,
    dry_run := false, max_kill_count := 1, kill_signal := 9 }

/-- Proc filesystem oracle for the per-pid reads of get_process_info: the
contents of /proc/pid/stat, /proc/pid/oom_score and /proc/pid/oom_score_adj,
none standing for a read failure. -/
structure ProcFs where
  stat : Int → Option String
  oom_score : Int → Option String
  oom_score_adj : Int → Option String

/-- Embedding of str::trim_matches(c): strip every leading and trailing c. -/
def trimMatchesChar (c : Char) (l : List Char) : List Char :=
  ((l.dropWhile (fun x => x = c)).reverse.dropWhile (fun x => x = c)).reverse

/-- Embedding of str::trim: strip leading and trailing whitespace. -/
def trimWs (l : List Char) : List Char :=
  ((l.dropWhile (fun x => x.isWhitespace)).reverse.dropWhile
    (fun x => x.isWhitespace)).reverse

/-- KillAction::get_process_info (src/src/plugins/actions/kill.rs lines
81-117): missing stat file is an Io error, fewer than 24 whitespace-separated
stat fields a Parse error; comm is field 1 stripped of parentheses, utime and
stime fields 13 and 14, vsize field 22 (0-based), each defaulting to 0 when
unparseable; oom_score and oom_score_adj default to 0 on read or parse
failure. -/
def get_process_info (fs : ProcFs) (pid : Int) : Except OomdError ProcessInfo :=
  match fs.stat pid with
  | none => Except.error (OomdError.Io "stat")
  | some content =>
    let stat_parts := splitWhitespace content
    if stat_parts.length < 24 then
      Except.error (OomdError.Parse "Invalid stat format")
    else
      let comm := List.asString
        (trimMatchesChar ')' (trimMatchesChar '(' (stat_parts.getD 1 "").toList))
      let utime := (parseU64 (stat_parts.getD 13 "")).getD 0
      let stime := (parseU64 (stat_parts.getD 14 "")).getD 0
      let vsize := (parseU64 (stat_parts.getD 22 "")).getD 0
      let score := match fs.oom_score pid with
        | some s => (parseI32 (List.asString (trimWs s.toList))).getD 0
        | none => 0
      let score_adj := match fs.oom_score_adj pid with
        | some s => (parseI32 (List.asString (trimWs s.toList))).getD 0
        | none => 0
      Except.ok
        { pid := pid, comm := comm, memory_usage := vsize,
          cpu_usage := ((utime + stime : Nat) : Rat), oom_score := score,
          oom_score_adj := score_adj }

/-- Comparator of the sort in KillAction::find_targets (src/src/plugins/
actions/kill.rs lines 151-173): strategyLe s a b holds when a may precede b. -/
def strategyLe (s : KillStrategy) (a b : ProcessInfo) : Bool :=
  match s with
  | KillStrategy.HighestMemory => decide (b.memory_usage ≤ a.memory_usage)
  | KillStrategy.HighestOomScore => decide (b.oom_score ≤ a.oom_score)
  | KillStrategy.LowestOomScore => decide (a.oom_score ≤ b.oom_score)
  | KillStrategy.Oldest => decide (a.memory_usage ≤ b.memory_usage)
  | KillStrategy.Newest => decide (b.memory_usage ≤ a.memory_usage)
  | KillStrategy.CgroupTarget _ => decide (b.memory_usage ≤ a.memory_usage)

/-- Candidate gathering of KillAction::find_targets (src/src/plugins/actions/
kill.rs lines 121-148): for CgroupTarget only the named cgroup's pids,
otherwise the pids of every cgroup in context order; pids whose
get_process_info fails are skipped. -/
def gather_targets (a : KillAction) (fs : ProcFs) (context : OomdContext) :
    List ProcessInfo :=
  match a.kill_strategy with
  | KillStrategy.CgroupTarget cgroup_path =>
    match context.get_cgroup cgroup_path with
    | some cgroup =>
      match cgroup.pids with
      | some pids => pids.filterMap (fun pid => (get_process_info fs pid).toOption)
      | none => []
    | none => []
  | _ =>
    context.cgroups.foldl
      (fun acc e =>
        match e.2.pids with
        | some pids =>
            acc ++ pids.filterMap (fun pid => (get_process_info fs pid).toOption)
        | none => acc) []

/-- KillAction::find_targets (src/src/plugins/actions/kill.rs lines 120-179):
gather, stable-sort by the strategy comparator, truncate to max_kill_count.
Rust Vec::sort_by is a stable sort; the stable-sorted permutation under a
total comparator is unique, so the structurally recursive insertion sort
used here computes the same list. -/
def find_targets (a : KillAction) (fs : ProcFs) (context : OomdContext) :
    Except OomdError (List ProcessInfo) :=
  Except.ok
    (((gather_targets a fs context).insertionSort
        (fun p q => strategyLe a.kill_strategy p q = true)).take a.max_kill_count)

/-- ActionResult (src/src/plugins/interface.rs lines 81-96), detail maps
reduced to the message strings. -/
inductive ActionResult where
  | Success (message : String)
  | Failed (error : String)
  | Skipped (reason : String)
deriving DecidableEq, Repr

/-- Modelled from the nix crate (external dependency of kill.rs line 195):
Signal::try_from(i32) succeeds exactly for the standard POSIX signal numbers
1..=31. -/
def signal_try_from (n : Int) : Option Int :=
  if 1 ≤ n ∧ n ≤ 31 then some n else none

/-- KillAction::kill_process (src/src/plugins/actions/kill.rs lines 182-223):
dry_run short-circuits to Skipped before any signal handling; otherwise an
invalid configured signal is a Config error, and a delivery attempt is made
whose success is the killOk oracle. The second component records the
(pid, signal) deliveries attempted via signal::kill. -/
def kill_process (a : KillAction) (killOk : Int → Bool) (process : ProcessInfo) :
    Except OomdError (ActionResult × List (Int × Int)) :=
  if a.dry_run then
    Except.ok (ActionResult.Skipped "Dry run", [])
  else
    match signal_try_from a.kill_signal with
    | none => Except.error (OomdError.Config "Invalid signal number")
    | some s =>
      if killOk process.pid then
        Except.ok (ActionResult.Success "Killed", [(process.pid, s)])
      else
        Except.ok (ActionResult.Failed "Failed to kill", [(process.pid, s)])

/-- KillAction::run (src/src/plugins/actions/kill.rs lines 280-325): disabled
or no targets yields Continue; otherwise every target is processed with all
kill_process outcomes (success, failure, skip, error) absorbed, and the
function returns Continue. The trace accumulates the signals delivered. -/
def KillAction.run (a : KillAction) (fs : ProcFs) (killOk : Int → Bool)
    (context : OomdContext) : Except OomdError (PluginRet × List (Int × Int)) :=
  if !a.enabled then Except.ok (PluginRet.Continue, [])
  else
    match find_targets a fs context with
    | Except.error e => Except.error e
    | Except.ok targets =>
      if targets.isEmpty then Except.ok (PluginRet.Continue, [])
      else
        Except.ok (PluginRet.Continue,
          targets.foldl
            (fun acc p =>
              match kill_process a killOk p with
              | Except.ok r => acc ++ r.2
              | Except.error _ => acc) [])

/-- Configuration record visible to KillAction::init through
BasePlugin::get_config: a field is some v when the JSON config holds a value
of the right type under that key. -/
structure KillConfig where
  strategy : Option String
  dry_run : Option Bool
  max_kill_count : Option Nat
  kill_signal : Option Int

/-- KillAction::init (src/src/plugins/actions/kill.rs lines 240-278): apply
each present config field (an unknown strategy string falls back to the
default HighestMemory), then validate only max_kill_count; kill_signal is
stored unvalidated. -/
def KillAction.init (cfg : KillConfig) : Except OomdError KillAction :=
  let a0 := KillAction.new
  let a1 : KillAction := match cfg.strategy with
    | some s =>
        { a0 with kill_strategy :=
            if s = "highest_memory" then KillStrategy.HighestMemory
            else if s = "highest_oom_score" then KillStrategy.HighestOomScore
            else if s = "lowest_oom_score" then KillStrategy.LowestOomScore
            else if s = "oldest" then KillStrategy.Oldest
            else if s = "newest" then KillStrategy.Newest
            else KillStrategy.HighestMemory }
    | none => a0
  let a2 : KillAction := match cfg.dry_run with
    | some b => { a1 with dry_run := b }
    | none => a1
  let a3 : KillAction := match cfg.max_kill_count with
    | some m => { a2 with max_kill_count := m }
    | none => a2
  let a4 : KillAction := match cfg.kill_signal with
    | some s => { a3 with kill_signal := s }
    | none => a3
  if a4.max_kill_count = 0 then
    Except.error (OomdError.Config "Max kill count must be at least 1")
  else
    Except.ok a4

/-- Cgroup a of scenario S3 with pids 1 and 2. -/
def s3_cgroup_a : CgroupContext :=
  { CgroupContext.new
      { root := "/sys/fs/cgroup", path := "/sys/fs/cgroup/a",
        relative_path := "a" } with
    pids := some [1, 2] }

/-- Cgroup b of scenario S3 with pids 3 and 4. -/
def s3_cgroup_b : CgroupContext :=
  { CgroupContext.new
      { root := "/sys/fs/cgroup", path := "/sys/fs/cgroup/b",
        relative_path := "b" } with
    pids := some [3, 4] }

/-- Context of scenario S3. -/
def s3_context : OomdContext :=
  { cgroups := [("a", s3_cgroup_a), ("b", s3_cgroup_b)] }

/-- Proc filesystem of scenario S3: 24-field stat lines with vsizes 1000,
3000, 2000, 4000 for pids 1-4. -/
def s3_fs : ProcFs :=
  { stat := fun pid =>
      if pid = 1 then some "1 (p1) S 0 0 0 0 0 0 0 0 0 0 5 5 0 0 0 0 0 0 0 1000 0"
      else if pid = 2 then some "2 (p2) S 0 0 0 0 0 0 0 0 0 0 5 5 0 0 0 0 0 0 0 3000 0"
      else if pid = 3 then some "3 (p3) S 0 0 0 0 0 0 0 0 0 0 5 5 0 0 0 0 0 0 0 2000 0"
      else if pid = 4 then some "4 (p4) S 0 0 0 0 0 0 0 0 0 0 5 5 0 0 0 0 0 0 0 4000 0"
      else none
    oom_score := fun _ => some "0"
    oom_score_adj := fun _ => some "0" }

/-- Kill action of scenario S3: highest_memory, max_kill_count 2, dry_run. -/
def s3_action : KillAction :=
  { enabled := true, kill_strategy := KillStrategy.HighestMemory,
    dry_run := true, max_kill_count := 2, kill_signal := 9 }

lemma strategyLe_total (s : KillStrategy) :
    ∀ a b : ProcessInfo, strategyLe s a b = true ∨ strategyLe s b a = true := by
  intro a b
  cases s <;> simp [strategyLe] <;> omega

lemma strategyLe_trans (s : KillStrategy) :
    ∀ a b c : ProcessInfo, strategyLe s a b = true → strategyLe s b c = true →
      strategyLe s a c = true := by
  intro a b c
  cases s <;> simp [strategyLe] <;> omega

/-- C6: find_targets sorts the gathered candidates by the strategy comparator
(highest_memory, newest and cgroup_target descending by memory_usage, oldest
ascending by memory_usage, highest/lowest_oom_score descending/ascending by
oom_score) and truncates to max_kill_count; on scenario S3 (highest_memory,
max_kill_count 2, dry_run) the selection is the pid of vsize 4000 then the
pid of vsize 3000, and run delivers no signal. -/
theorem c6_kill_target_selection :
    (∀ a b : ProcessInfo,
       strategyLe KillStrategy.HighestMemory a b =
         decide (b.memory_usage ≤ a.memory_usage) ∧
       strategyLe KillStrategy.Newest a b =
         decide (b.memory_usage ≤ a.memory_usage) ∧
       (∀ p, strategyLe (KillStrategy.CgroupTarget p) a b =
         decide (b.memory_usage ≤ a.memory_usage)) ∧
       strategyLe KillStrategy.Oldest a b =
         decide (a.memory_usage ≤ b.memory_usage) ∧
       strategyLe KillStrategy.HighestOomScore a b =
         decide (b.oom_score ≤ a.oom_score) ∧
       strategyLe KillStrategy.LowestOomScore a b =
         decide (a.oom_score ≤ b.oom_score)) ∧
    (∀ (a : KillAction) (fs : ProcFs) (ctx : OomdContext) (l : List ProcessInfo),
       find_targets a fs ctx = Except.ok l →
       l.Pairwise (fun p q => strategyLe a.kill_strategy p q = true) ∧
       l.length ≤ a.max_kill_count) ∧
    ((find_targets s3_action s3_fs s3_context).toOption.getD []).map
        (fun p => (p.pid, p.memory_usage)) = [(4, 4000), (2, 3000)] ∧
    KillAction.run s3_action s3_fs (fun _ => true) s3_context =
      Except.ok (PluginRet.Continue, []) := by
  refine ⟨?_, ?_, ?_, ?_⟩
  · intro a b
    exact ⟨rfl, rfl, fun p => rfl, rfl, rfl, rfl⟩
  · intro a fs ctx l h
    simp only [find_targets, Except.ok.injEq] at h
    subst h
    constructor
    · haveI : IsTotal ProcessInfo (fun p q => strategyLe a.kill_strategy p q = true) :=
        ⟨strategyLe_total a.kill_strategy⟩
      haveI : IsTrans ProcessInfo (fun p q => strategyLe a.kill_strategy p q = true) :=
        ⟨strategyLe_trans a.kill_strategy⟩
      exact List.Pairwise.sublist (List.take_sublist _ _)
        (List.sorted_insertionSort _ _)
    · exact List.length_take_le _ _
  · decide
  · rfl

/-- Witness for c6_kill_target_selection: the middle conjunct applied to
scenario S3. -/
theorem c6_kill_target_selection_witness :
    ((find_targets s3_action s3_fs s3_context).toOption.getD []).Pairwise
      (fun p q => strategyLe s3_action.kill_strategy p q = true) ∧
    ((find_targets s3_action s3_fs s3_context).toOption.getD []).length ≤
      s3_action.max_kill_count :=
  c6_kill_target_selection.2.1 s3_action s3_fs s3_context
    ((find_targets s3_action s3_fs s3_context).toOption.getD []) (by rfl)

/-- Kill configuration with an out-of-range signal number 999. -/
def c7_bad_config : KillConfig :=
  { strategy := some "highest_memory", dry_run := some false,
    max_kill_count := some 1, kill_signal := some 999 }

/-- Sample process for the kill-path evaluations. -/
def sampleProcess : ProcessInfo :=
  { pid := 42, comm := "worker", memory_usage := 1000, cpu_usage := 0,
    oom_score := 0, oom_score_adj := 0 }

/-- C7 counterexample: init accepts kill_signal = 999 (no Config error at
init time), and it is the per-process kill path that reports the
invalid-signal Config error — the opposite of the claim. -/
theorem c7_counterexample :
    KillAction.init c7_bad_config =
      Except.ok
        { enabled := true, kill_strategy := KillStrategy.HighestMemory,
          dry_run := false, max_kill_count := 1, kill_signal := 999 } ∧
    kill_process
      { enabled := true, kill_strategy := KillStrategy.HighestMemory,
        dry_run := false, max_kill_count := 1, kill_signal := 999 }
      (fun _ => true) sampleProcess =
      Except.error (OomdError.Config "Invalid signal number") := by
  constructor
  · rfl
  · rfl

/-- C7 (amended): init never validates kill_signal — it succeeds for every
configured signal value as long as max_kill_count is not zero — and the
invalid-signal Config error is produced by kill_process at each non-dry-run
kill attempt (the dry-run path skips before the signal is examined). -/
theorem c7_signal_validated_at_kill_time :
    (∀ cfg : KillConfig, cfg.max_kill_count ≠ some 0 →
       (KillAction.init cfg).isOk = true) ∧
    (∀ (a : KillAction) (killOk : Int → Bool) (p : ProcessInfo),
       a.dry_run = false → signal_try_from a.kill_signal = none →
       kill_process a killOk p =
         Except.error (OomdError.Config "Invalid signal number")) ∧
    (∀ (a : KillAction) (killOk : Int → Bool) (p : ProcessInfo),
       a.dry_run = true →
       kill_process a killOk p = Except.ok (ActionResult.Skipped "Dry run", [])) := by
  refine ⟨?_, ?_, ?_⟩
  · intro cfg hm
    unfold KillAction.init
    cases hs : cfg.strategy <;> cases hd : cfg.dry_run <;>
      cases hmk : cfg.max_kill_count <;> cases hk : cfg.kill_signal <;>
      simp_all [KillAction.new, Except.isOk, Except.toBool]
  · intro a killOk p hdry hsig
    simp [kill_process, hdry, hsig]
  · intro a killOk p hdry
    simp [kill_process, hdry]

/-- Witness for c7_signal_validated_at_kill_time at the bad config and a
non-dry-run action with signal 999. -/
theorem c7_signal_validated_at_kill_time_witness :
    (KillAction.init c7_bad_config).isOk = true ∧
    kill_process
      { enabled := true, kill_strategy := KillStrategy.HighestMemory,
        dry_run := false, max_kill_count := 1, kill_signal := 999 }
      (fun _ => true) sampleProcess =
      Except.error (OomdError.Config "Invalid signal number") ∧
    kill_process
      { enabled := true, kill_strategy := KillStrategy.HighestMemory,
        dry_run := true, max_kill_count := 1, kill_signal := 999 }
      (fun _ => true) sampleProcess =
      Except.ok (ActionResult.Skipped "Dry run", []) :=
  ⟨c7_signal_validated_at_kill_time.1 c7_bad_config (by simp [c7_bad_config]),
   c7_signal_validated_at_kill_time.2.1 _ (fun _ => true) sampleProcess rfl (by rfl),
   c7_signal_validated_at_kill_time.2.2 _ (fun _ => true) sampleProcess rfl⟩

/-- ReclaimStrategy (src/src/plugins/actions/memory_reclaim.rs lines 20-30). -/
inductive ReclaimStrategy where
  | DropCache
  | CgroupTarget (cgroup_path : String) (percentage : Rat)
  | AllCgroups (percentage : Rat)
  | HighestUsage (percentage : Rat) (cgroup_count : Nat)

/-- MemoryReclaimAction state (src/src/plugins/actions/memory_reclaim.rs
lines 11-17); the BasePlugin is reduced to its enabled flag and the optional
cgroup manager to its presence. -/
structure MemoryReclaimAction where
  enabled : Bool
  reclaim_strategy : ReclaimStrategy
  reclaim_amount_bytes : Nat
  dry_run : Bool
  has_manager : Bool

/-- Environment oracle for the reclaim side effects: success of the
drop_caches writes, of create_cgroup_path and of memory_reclaim per cgroup. -/
structure ReclaimEnv where
  drop_cache_write_ok : Bool
  create_path_ok : String → Bool
  reclaim_ok : String → Bool

/-- Amount computation of MemoryReclaimAction::run (src/src/plugins/actions/
memory_reclaim.rs lines 292, 297, 302): reclaim_amount_bytes * percentage/100
truncated to u64. -/
def computeAmount (bytes : Nat) (percentage : Rat) : Nat :=
  (((bytes : Rat) * (percentage / 100)).floor).toNat

/-- MemoryReclaimAction::drop_page_cache (src/src/plugins/actions/
memory_reclaim.rs lines 76-109): Skipped under dry_run, Io error when a
write fails, Success otherwise. -/
def drop_page_cache (a : MemoryReclaimAction) (env : ReclaimEnv) :
    Except OomdError ActionResult :=
  if a.dry_run then Except.ok (ActionResult.Skipped "Dry run")
  else if env.drop_cache_write_ok then
    Except.ok (ActionResult.Success "Page cache dropped successfully")
  else Except.error (OomdError.Io "drop_caches")

/-- MemoryReclaimAction::reclaim_from_cgroup (src/src/plugins/actions/
memory_reclaim.rs lines 112-156): without a manager the result is Failed;
the create_cgroup_path error propagates (the only Err path); dry_run skips;
otherwise memory_reclaim success and failure map to Success and Failed. -/
def reclaim_from_cgroup (a : MemoryReclaimAction) (env : ReclaimEnv)
    (cgroup_path : String) (_amount : Nat) : Except OomdError ActionResult :=
  if a.has_manager then
    if env.create_path_ok cgroup_path then
      if a.dry_run then Except.ok (ActionResult.Skipped "Dry run")
      else if env.reclaim_ok cgroup_path then
        Except.ok (ActionResult.Success "Reclaimed")
      else Except.ok (ActionResult.Failed "Failed to reclaim")
    else Except.error (OomdError.InvalidPath cgroup_path)
  else Except.ok (ActionResult.Failed "Cgroup manager not available")

/-- MemoryReclaimAction::reclaim_from_multiple_cgroups (src/src/plugins/
actions/memory_reclaim.rs lines 159-204): every per-cgroup outcome is
absorbed; Success when the accumulated amount is positive, Failed otherwise. -/
def reclaim_from_multiple_cgroups (a : MemoryReclaimAction) (env : ReclaimEnv)
    (cgroups : List String) (amount_per_cgroup : Nat) :
    Except OomdError ActionResult :=
  let total := cgroups.foldl
    (fun acc p =>
      match reclaim_from_cgroup a env p amount_per_cgroup with
      | Except.ok (ActionResult.Success _) => acc + amount_per_cgroup
      | _ => acc) 0
  if total > 0 then Except.ok (ActionResult.Success "Reclaimed from cgroups")
  else Except.ok (ActionResult.Failed "No memory reclaimed")

/-- MemoryReclaimAction::find_highest_usage_cgroups (src/src/plugins/actions/
memory_reclaim.rs lines 207-220): cgroups carrying a memory_usage, sorted
descending by usage (stable), truncated to count. -/
def find_highest_usage_cgroups (context : OomdContext) (count : Nat) :
    List String :=
  (((context.cgroups.filterMap
      (fun (e : String × CgroupContext) =>
        e.2.memory_usage.map (fun u => (e.1, u)))).insertionSort
      (fun p q => q.2 ≤ p.2)).take count).map (fun p => p.1)

/-- MemoryReclaimAction::run (src/src/plugins/actions/memory_reclaim.rs lines
282-332): disabled returns Continue; otherwise the strategy's result —
Success, Failed, Skipped or Err alike — is only recorded, and the function
returns Continue. -/
def MemoryReclaimAction.run (a : MemoryReclaimAction) (env : ReclaimEnv)
    (context : OomdContext) : Except OomdError PluginRet :=
  if !a.enabled then Except.ok PluginRet.Continue
  else
    let result := match a.reclaim_strategy with
      | ReclaimStrategy.DropCache => drop_page_cache a env
      | ReclaimStrategy.CgroupTarget cgroup_path percentage =>
          reclaim_from_cgroup a env cgroup_path
            (computeAmount a.reclaim_amount_bytes percentage)
      | ReclaimStrategy.AllCgroups percentage =>
          reclaim_from_multiple_cgroups a env
            (context.cgroups.map (fun (e : String × CgroupContext) => e.1))
            (computeAmount a.reclaim_amount_bytes percentage)
      | ReclaimStrategy.HighestUsage percentage cgroup_count =>
          reclaim_from_multiple_cgroups a env
            (find_highest_usage_cgroups context cgroup_count)
            (computeAmount a.reclaim_amount_bytes percentage)
    match result with
    | Except.ok (ActionResult.Success _) => Except.ok PluginRet.Continue
    | Except.ok (ActionResult.Failed _) => Except.ok PluginRet.Continue
    | Except.ok (ActionResult.Skipped _) => Except.ok PluginRet.Continue
    | Except.error _ => Except.ok PluginRet.Continue

/-- C10: for every context and environment, KillAction::run returns Continue
(with some delivery trace) and MemoryReclaimAction::run returns Continue —
never Stop and never an error — on all paths: disabled, dry-run, empty
target set, per-target success, failure or error. -/
theorem c10_actions_always_continue :
    (∀ (a : KillAction) (fs : ProcFs) (killOk : Int → Bool) (ctx : OomdContext),
       ∃ trace, KillAction.run a fs killOk ctx =
         Except.ok (PluginRet.Continue, trace)) ∧
    (∀ (a : MemoryReclaimAction) (env : ReclaimEnv) (ctx : OomdContext),
       MemoryReclaimAction.run a env ctx = Except.ok PluginRet.Continue) := by
  constructor
  · intro a fs killOk ctx
    by_cases he : a.enabled
    · by_cases hemp :
          (((gather_targets a fs ctx).insertionSort
            (fun p q => strategyLe a.kill_strategy p q = true)).take
              a.max_kill_count).isEmpty
      · exact ⟨[], by simp [KillAction.run, find_targets, he, hemp]⟩
      · exact ⟨(((gather_targets a fs ctx).insertionSort
            (fun p q => strategyLe a.kill_strategy p q = true)).take
              a.max_kill_count).foldl
            (fun acc p =>
              match kill_process a killOk p with
              | Except.ok r => acc ++ r.2
              | Except.error _ => acc) [],
          by simp [KillAction.run, find_targets, he, hemp]⟩
    · exact ⟨[], by simp [KillAction.run, he]⟩
  · intro a env ctx
    unfold MemoryReclaimAction.run
    by_cases he : a.enabled
    · simp only [he, Bool.not_true, Bool.false_eq_true, if_false]
      split <;> rfl
    · simp [he]

/-- Runtime type identifiers for the Any-based downcasts in
src/src/plugins/registry.rs: the concrete type stored behind the &dyn Any. -/
inductive AnyTypeId where
  | arcDynPlugin
  | arcDynDetectorPlugin
  | arcDynActionPlugin
deriving DecidableEq, Repr

/-- Plugin handle reduced to its registry-relevant identity. -/
structure PluginHandle where
  name : String
deriving DecidableEq, Repr

/-- A &dyn Any value: the concrete type id plus the referenced handle. -/
structure AnyRef where
  typeId : AnyTypeId
  payload : PluginHandle
deriving DecidableEq, Repr

/-- impl AsAny for Arc<dyn Plugin> (src/src/plugins/registry.rs lines
283-287): as_any returns self, so the concrete runtime type of the returned
&dyn Any is Arc<dyn Plugin>. -/
def as_any_arc_plugin (p : PluginHandle) : AnyRef :=
  { typeId := AnyTypeId.arcDynPlugin, payload := p }

/-- Any::downcast_ref::<Arc<dyn DetectorPlugin>>: Some exactly when the
concrete type id is Arc<dyn DetectorPlugin>. -/
def downcast_detector (a : AnyRef) : Option PluginHandle :=
  if a.typeId = AnyTypeId.arcDynDetectorPlugin then some a.payload else none

/-- Any::downcast_ref::<Arc<dyn ActionPlugin>>: Some exactly when the
concrete type id is Arc<dyn ActionPlugin>. -/
def downcast_action (a : AnyRef) : Option PluginHandle :=
  if a.typeId = AnyTypeId.arcDynActionPlugin then some a.payload else none

/-- PluginRegistry (src/src/plugins/registry.rs lines 7-12); the metadata
map, unused by the verified operations, is omitted. -/
structure PluginRegistry where
  plugins : List (String × PluginHandle)
  detectors : List (String × PluginHandle)
  actions : List (String × PluginHandle)
deriving DecidableEq, Repr

/-- HashMap::insert with replace semantics on the registry maps. -/
def insertAssoc (m : List (String × PluginHandle)) (k : String)
    (v : PluginHandle) : List (String × PluginHandle) :=
  (k, v) :: m.filter (fun e => !(e.1 == k))

/-- PluginRegistry::register_plugin (src/src/plugins/registry.rs lines
26-46): insert into the general map, then insert into the capability maps
only when the corresponding runtime downcast of the Arc<dyn Plugin> handle
succeeds. -/
def register_plugin (r : PluginRegistry) (p : PluginHandle) : PluginRegistry :=
  let r1 : PluginRegistry := { r with plugins := insertAssoc r.plugins p.name p }
  let r2 : PluginRegistry :=
    match downcast_detector (as_any_arc_plugin p) with
    | some d => { r1 with detectors := insertAssoc r1.detectors p.name d }
    | none => r1
  match downcast_action (as_any_arc_plugin p) with
  | some act => { r2 with actions := insertAssoc r2.actions p.name act }
  | none => r2

/-- PluginRegistry::register_detector (src/src/plugins/registry.rs lines
49-60): insert into both the general and the detector map. -/
def register_detector (r : PluginRegistry) (d : PluginHandle) : PluginRegistry :=
  { r with plugins := insertAssoc r.plugins d.name d,
           detectors := insertAssoc r.detectors d.name d }

/-- PluginRegistry::register_action (src/src/plugins/registry.rs lines
63-74): insert into both the general and the action map. -/
def register_action (r : PluginRegistry) (a : PluginHandle) : PluginRegistry :=
  { r with plugins := insertAssoc r.plugins a.name a,
           actions := insertAssoc r.actions a.name a }

/-- PluginRegistry::get_plugin (src/src/plugins/registry.rs lines 77-79). -/
def get_plugin (r : PluginRegistry) (name : String) : Option PluginHandle :=
  (r.plugins.find? (fun e => e.1 == name)).map (fun e => e.2)

/-- PluginRegistry::has_detector (src/src/plugins/registry.rs lines
117-119). -/
def has_detector (r : PluginRegistry) (name : String) : Bool :=
  (r.detectors.find? (fun e => e.1 == name)).isSome

/-- PluginRegistry::has_action (src/src/plugins/registry.rs lines 122-124). -/
def has_action (r : PluginRegistry) (name : String) : Bool :=
  (r.actions.find? (fun e => e.1 == name)).isSome

/-- C9: register_plugin downcasts the Arc<dyn Plugin> handle, whose concrete
type is Arc<dyn Plugin>, so both capability downcasts fail: the detectors
and actions maps are left exactly as they were, get_plugin finds the plugin,
and has_detector / has_action stay false when they were false; only
register_detector and register_action populate the capability maps. -/
theorem c9_register_plugin_no_capability :
    (∀ (r : PluginRegistry) (p : PluginHandle),
       (register_plugin r p).plugins = insertAssoc r.plugins p.name p ∧
       (register_plugin r p).detectors = r.detectors ∧
       (register_plugin r p).actions = r.actions ∧
       get_plugin (register_plugin r p) p.name = some p ∧
       (has_detector r p.name = false →
         has_detector (register_plugin r p) p.name = false) ∧
       (has_action r p.name = false →
         has_action (register_plugin r p) p.name = false)) ∧
    (∀ (r : PluginRegistry) (d : PluginHandle),
       has_detector (register_detector r d) d.name = true ∧
       get_plugin (register_detector r d) d.name = some d) ∧
    (∀ (r : PluginRegistry) (a : PluginHandle),
       has_action (register_action r a) a.name = true ∧
       get_plugin (register_action r a) a.name = some a) := by
  refine ⟨?_, ?_, ?_⟩
  · intro r p
    refine ⟨rfl, rfl, rfl, ?_, ?_, ?_⟩
    · simp [register_plugin, downcast_detector, downcast_action,
        as_any_arc_plugin, get_plugin, insertAssoc]
    · intro h
      simpa [register_plugin, downcast_detector, downcast_action,
        as_any_arc_plugin, has_detector] using h
    · intro h
      simpa [register_plugin, downcast_detector, downcast_action,
        as_any_arc_plugin, has_action] using h
  · intro r d
    constructor
    · simp [register_detector, has_detector, insertAssoc]
    · simp [register_detector, get_plugin, insertAssoc]
  · intro r a
    constructor
    · simp [register_action, has_action, insertAssoc]
    · simp [register_action, get_plugin, insertAssoc]

/-- Witness for c9_register_plugin_no_capability: registering the plugin p1
generically into the empty registry. -/
theorem c9_register_plugin_no_capability_witness :
    get_plugin (register_plugin { plugins := [], detectors := [], actions := [] }
      { name := "p1" }) "p1" = some { name := "p1" } ∧
    has_detector (register_plugin { plugins := [], detectors := [], actions := [] }
      { name := "p1" }) "p1" = false ∧
    has_action (register_plugin { plugins := [], detectors := [], actions := [] }
      { name := "p1" }) "p1" = false ∧
    has_detector (register_detector { plugins := [], detectors := [], actions := [] }
      { name := "p1" }) "p1" = true :=
  ⟨(c9_register_plugin_no_capability.1
      { plugins := [], detectors := [], actions := [] } { name := "p1" }).2.2.2.1,
   (c9_register_plugin_no_capability.1
      { plugins := [], detectors := [], actions := [] } { name := "p1" }).2.2.2.2.1
      (by rfl),
   (c9_register_plugin_no_capability.1
      { plugins := [], detectors := [], actions := [] } { name := "p1" }).2.2.2.2.2
      (by rfl),
   (c9_register_plugin_no_capability.2.1
      { plugins := [], detectors := [], actions := [] } { name := "p1" }).1⟩
